import Mathlib

/-!
Shallow embedding of the UDP transport/protocol bridge of the Lite3
quadruped driver (iot_driver_copilot, driver.py).

Modelling conventions:
- wire bytes are naturals (each produced byte is < 256);
- the network is an oracle from the sent datagram to an optional reply
  (none models the absence of any inbound datagram within the timeout,
  i.e. the socket.timeout branch of send_udp_message);
- IEEE-754 binary32 values travel as their 32-bit little-endian bit
  patterns, exactly as struct.pack/unpack handles them; f32ToRat
  interprets a bit pattern as the exact rational value it denotes
  (none for the exponent-255 NaN/infinity patterns);
- socket lifecycle effects of the with-block in send_udp_message are
  recorded as an explicit event trace (open, sendto, recv, close).
-/

def COMMAND_HEADER : List Nat := [0xA5, 0x5A]

def STATE_REQUEST : List Nat := [0xA5, 0x5A, 0x01, 0x00]

def SENSOR_REQUEST : List Nat := [0xA5, 0x5A, 0x02, 0x00]

/-- Lowercase hex digit, as produced by Python bytes.hex(). -/
def hexDigit (n : Nat) : Char :=
  if n < 10 then Char.ofNat (48 + n) else Char.ofNat (87 + n)

/-- Two lowercase hex digits of one byte. -/
def byteHex (b : Nat) : List Char :=
  [hexDigit (b / 16 % 16), hexDigit (b % 16)]

/-- data.hex() of Python: lowercase hex, two digits per byte. -/
def hexStr (data : List Nat) : String :=
  String.mk ((data.map byteHex).flatten)

/-- Little-endian 32-bit word read at a byte offset
    (struct.unpack_from at that offset). -/
def le32 (data : List Nat) (off : Nat) : Nat :=
  data.getD off 0 + data.getD (off + 1) 0 * 256 +
    data.getD (off + 2) 0 * 65536 + data.getD (off + 3) 0 * 16777216

/-- n consecutive little-endian 32-bit words starting at a byte offset
    (struct.unpack_from with a repeated 4-byte field). -/
def words (data : List Nat) (off n : Nat) : List Nat :=
  (List.range n).map (fun i => le32 data (off + 4 * i))

/-- The four little-endian bytes of a 32-bit word (struct.pack of one
    4-byte field). -/
def natToLe4 (w : Nat) : List Nat :=
  [w % 256, w / 256 % 256, w / 65536 % 256, w / 16777216 % 256]

/-- Exact rational value denoted by an IEEE-754 binary32 bit pattern;
    none for exponent 255 (infinities and NaNs). -/
def f32ToRat (bits : Nat) : Option ℚ :=
  let sign : Nat := bits / 2 ^ 31 % 2
  let ex : Nat := bits / 2 ^ 23 % 2 ^ 8
  let frac : Nat := bits % 2 ^ 23
  if ex = 255 then none
  else
    let mag : ℚ :=
      if ex = 0 then (frac : ℚ) / 2 ^ 149
      else ((2 ^ 23 + frac : ℚ) * 2 ^ ex) / 2 ^ 150
    some (if sign = 1 then -mag else mag)

/-- Socket lifecycle and I/O events of one send_udp_message call. -/
inductive Ev where
  | openSock : Ev
  | sendto : List Nat → Ev
  | recvOk : List Nat → Ev
  | closeSock : Ev
deriving DecidableEq

/-- The datagrams sent in a trace, in order. -/
def sentDatagrams (t : List Ev) : List (List Nat) :=
  t.filterMap (fun e => match e with | Ev.sendto d => some d | _ => none)

/-- send_udp_message (driver.py lines 29-39): open an ephemeral socket,
    send the payload once, optionally wait for one reply of at most
    reply_size bytes, close the socket (the with-block closes it on every
    exit path).  The oracle returning none is the socket.timeout branch,
    which the function turns into the result none. -/
def send_udp_message (net : List Nat → Option (List Nat)) (payload : List Nat)
    (expect_reply : Bool) (reply_size : Nat) : Option (List Nat) × List Ev :=
  if expect_reply then
    match net payload with
    | some d =>
        (some (d.take reply_size),
         [Ev.openSock, Ev.sendto payload, Ev.recvOk (d.take reply_size), Ev.closeSock])
    | none => (none, [Ev.openSock, Ev.sendto payload, Ev.closeSock])
  else (none, [Ev.openSock, Ev.sendto payload, Ev.closeSock])

/-- Decoded robot state (parse_state success dict); float fields carry
    binary32 bit patterns. -/
structure StateRecord where
  posture : Nat
  joint_angles : List Nat
  joint_velocities : List Nat
  position : List Nat
  gait : Nat
deriving DecidableEq

/-- Result of parse_state: the success dict, or the except-branch
    fallback dict with the hex of the buffer. -/
inductive StateResult where
  | ok : StateRecord → StateResult
  | raw : String → StateResult
deriving DecidableEq

/-- parse_state (driver.py lines 41-67): layout header(2), posture(1),
    12 float32 joint angles, 12 float32 joint velocities, 3 float32
    position, gait(1); a buffer shorter than 112 bytes raises, and every
    exception is caught and turned into the raw-hex fallback dict. -/
def parse_state (data : List Nat) : StateResult :=
  if data.length < 2 + 1 + 12 * 4 + 12 * 4 + 3 * 4 + 1 then
    StateResult.raw (hexStr data)
  else
    StateResult.ok
      { posture := data.getD 2 0
        joint_angles := words data 3 12
        joint_velocities := words data 51 12
        position := words data 99 3
        gait := data.getD 111 0 }

/-- Decoded sensor data (parse_sensors success dict); float fields carry
    binary32 bit patterns. -/
structure SensorRecord where
  acc : List Nat
  gyro : List Nat
  mag : List Nat
  voltage : Nat
  level : Nat
  vx : Nat
  vy : Nat
  vtheta : Nat
deriving DecidableEq

/-- Result of parse_sensors: the success dict, or the except-branch
    fallback dict with the hex of the buffer. -/
inductive SensorResult where
  | ok : SensorRecord → SensorResult
  | raw : String → SensorResult
deriving DecidableEq

/-- parse_sensors (driver.py lines 69-98): layout header(2), 9 float32
    imu (acc, gyro, mag), 2 float32 battery, 3 float32 velocity; a buffer
    shorter than 58 bytes raises, and every exception is caught and
    turned into the raw-hex fallback dict. -/
def parse_sensors (data : List Nat) : SensorResult :=
  if data.length < 2 + 9 * 4 + 2 * 4 + 3 * 4 then
    SensorResult.raw (hexStr data)
  else
    let imu := words data 2 9
    let battery := words data 38 2
    let velocity := words data 46 3
    SensorResult.ok
      { acc := imu.take 3
        gyro := (imu.drop 3).take 3
        mag := (imu.drop 6).take 3
        voltage := battery.getD 0 0
        level := battery.getD 1 0
        vx := velocity.getD 0 0
        vy := velocity.getD 1 0
        vtheta := velocity.getD 2 0 }

/-- JSON-like value, enough for the JSONResponse bodies of the driver;
    numeric leaves carry naturals (ints, or binary32 bit patterns for
    float fields), float arrays carry lists of bit patterns. -/
inductive JVal where
  | jnum : Nat → JVal
  | jarr : List Nat → JVal
  | jstr : String → JVal
  | jobj : List (String × JVal) → JVal

/-- An HTTP response: status code and JSON body. -/
structure HttpResponse where
  status : Nat
  body : JVal

/-- The JSON body built from a parse_state result. -/
def stateJson : StateResult → JVal
  | StateResult.ok r =>
      JVal.jobj
        [("posture", JVal.jnum r.posture),
         ("joint_angles", JVal.jarr r.joint_angles),
         ("joint_velocities", JVal.jarr r.joint_velocities),
         ("position", JVal.jarr r.position),
         ("gait", JVal.jnum r.gait)]
  | StateResult.raw s => JVal.jobj [("raw", JVal.jstr s)]

/-- The dict built from a parse_sensors result, as a key-value list so
    that the membership test of get_sensors is a key lookup. -/
def sensorsFields : SensorResult → List (String × JVal)
  | SensorResult.ok r =>
      [("imu", JVal.jobj
          [("acc", JVal.jarr r.acc),
           ("gyro", JVal.jarr r.gyro),
           ("mag", JVal.jarr r.mag)]),
       ("battery", JVal.jobj
          [("voltage", JVal.jnum r.voltage),
           ("level", JVal.jnum r.level)]),
       ("velocity", JVal.jobj
          [("vx", JVal.jnum r.vx),
           ("vy", JVal.jnum r.vy),
           ("vtheta", JVal.jnum r.vtheta)])]
  | SensorResult.raw s => [("raw", JVal.jstr s)]

/-- Parameters of a /command request; a field is none when the key is
    absent from params (params.get then supplies the default).  The angle
    travels as the binary32 bit pattern of float(params.get("angle", 0)). -/
structure Params where
  mode : Option Int
  joint_id : Option Int
  angleBits : Option Nat
  gait_id : Option Int
  action_id : Option Int
deriving DecidableEq

/-- Result of building the command body (driver.py lines 113-132):
    the body bytes, the unknown-command branch, or a struct.error from
    packing an out-of-range integer. -/
inductive BodyResult where
  | ok : List Nat → BodyResult
  | unknown : BodyResult
  | packError : BodyResult
deriving DecidableEq

/-- struct.pack of one unsigned byte: defined for 0..255, struct.error
    otherwise. -/
def packB (i : Int) : Option (List Nat) :=
  if 0 ≤ i ∧ i < 256 then some [i.toNat] else none

/-- The cmd-dispatch chain of the /command handler (driver.py lines
    113-132), including the params.get defaults. -/
def buildBody (cmd : Option String) (p : Params) : BodyResult :=
  if cmd = some "heartbeat" then BodyResult.ok [0x01]
  else if cmd = some "state_change" then
    match packB (p.mode.getD 0) with
    | some mb => BodyResult.ok ([0x02] ++ mb)
    | none => BodyResult.packError
  else if cmd = some "axis" then
    match packB (p.joint_id.getD 0) with
    | some jb => BodyResult.ok ([0x03] ++ jb ++ natToLe4 (p.angleBits.getD 0))
    | none => BodyResult.packError
  else if cmd = some "gait" then
    match packB (p.gait_id.getD 0) with
    | some gb => BodyResult.ok ([0x04] ++ gb)
    | none => BodyResult.packError
  else if cmd = some "action" then
    match packB (p.action_id.getD 0) with
    | some ab => BodyResult.ok ([0x05] ++ ab)
    | none => BodyResult.packError
  else BodyResult.unknown

/-- Framing of the /command handler (driver.py lines 135-137):
    header ++ length byte ++ body, then the 8-bit sum of those bytes
    appended as checksum (sum(pkt) & 0xFF equals sum(pkt) % 256 on
    the nonnegative byte values involved). -/
def encodeFrame (body : List Nat) : Option (List Nat) :=
  if body.length < 256 then
    let pkt := COMMAND_HEADER ++ [body.length] ++ body
    some (pkt ++ [pkt.sum % 256])
  else none

/-- The /command handler (driver.py lines 100-143): build the body,
    frame it, send it over UDP, and translate the outcome into an HTTP
    response; the unknown-command and pack-error branches return before
    any network I/O. -/
def commandHandler (net : List Nat → Option (List Nat)) (cmd : Option String)
    (p : Params) : HttpResponse × List Ev :=
  match buildBody cmd p with
  | BodyResult.unknown =>
      (⟨400, JVal.jobj [("error", JVal.jstr "Unknown command type")]⟩, [])
  | BodyResult.packError =>
      (⟨500, JVal.jobj [("error", JVal.jstr "struct error")]⟩, [])
  | BodyResult.ok body =>
    match encodeFrame body with
    | none => (⟨500, JVal.jobj [("error", JVal.jstr "struct error")]⟩, [])
    | some pkt =>
      let res := send_udp_message net pkt true 256
      match res.1 with
      | none =>
          (⟨504, JVal.jobj
              [("status", JVal.jstr "timeout"),
               ("sent", JVal.jstr (hexStr pkt))]⟩, res.2)
      | some reply =>
          (⟨200, JVal.jobj
              [("status", JVal.jstr "ok"),
               ("sent", JVal.jstr (hexStr pkt)),
               ("reply", JVal.jstr (hexStr reply))]⟩, res.2)

/-- The /state handler (driver.py lines 145-155). -/
def get_state (net : List Nat → Option (List Nat)) : HttpResponse × List Ev :=
  let res := send_udp_message net STATE_REQUEST true 512
  match res.1 with
  | none => (⟨504, JVal.jobj [("error", JVal.jstr "timeout")]⟩, res.2)
  | some d => (⟨200, stateJson (parse_state d)⟩, res.2)

/-- The /sensors handler (driver.py lines 157-169); ty is the optional
    type query parameter, and the Python truthiness test means a present
    but empty string is treated like an absent filter. -/
def get_sensors (net : List Nat → Option (List Nat)) (ty : Option String) :
    HttpResponse × List Ev :=
  let res := send_udp_message net SENSOR_REQUEST true 512
  match res.1 with
  | none => (⟨504, JVal.jobj [("error", JVal.jstr "timeout")]⟩, res.2)
  | some d =>
    let fields := sensorsFields (parse_sensors d)
    match ty with
    | some t =>
      if t ≠ "" then
        match fields.lookup t with
        | some v => (⟨200, JVal.jobj [(t, v)]⟩, res.2)
        | none => (⟨200, JVal.jobj fields⟩, res.2)
      else (⟨200, JVal.jobj fields⟩, res.2)
    | none => (⟨200, JVal.jobj fields⟩, res.2)

/-! Helper lemmas shared by the claim theorems. -/

/-- Every send_udp_message call emits exactly one sendto event. -/
theorem sent_send_udp (net : List Nat → Option (List Nat)) (payload : List Nat)
    (er : Bool) (sz : Nat) :
    sentDatagrams (send_udp_message net payload er sz).2 = [payload] := by
  unfold send_udp_message
  cases er
  · simp [sentDatagrams]
  · cases net payload <;> simp [sentDatagrams]

/-- A little-endian word read that lies inside the first list is not
    affected by appended bytes. -/
theorem le32_append (data ext : List Nat) (off : Nat) (h : off + 4 ≤ data.length) :
    le32 (data ++ ext) off = le32 data off := by
  unfold le32
  rw [List.getD_append _ _ _ _ (by omega), List.getD_append _ _ _ _ (by omega),
    List.getD_append _ _ _ _ (by omega), List.getD_append _ _ _ _ (by omega)]

/-- A run of words read inside the first list is not affected by
    appended bytes. -/
theorem words_append (data ext : List Nat) (off n : Nat)
    (h : off + 4 * n ≤ data.length) :
    words (data ++ ext) off n = words data off n := by
  unfold words
  refine List.map_congr_left (fun i hi => ?_)
  have hi' : i < n := List.mem_range.mp hi
  exact le32_append data ext (off + 4 * i) (by omega)

/-- parse_state reads only the first 112 bytes: appending anything to a
    buffer that already meets the schema width does not change the
    decoded result. -/
theorem parse_state_append (data ext : List Nat) (h : 112 ≤ data.length) :
    parse_state (data ++ ext) = parse_state data := by
  have hlen : (data ++ ext).length = data.length + ext.length :=
    List.length_append data ext
  unfold parse_state
  rw [if_neg (by omega), if_neg (by omega),
    List.getD_append _ _ _ _ (by omega), List.getD_append _ _ _ _ (by omega),
    words_append data ext 3 12 (by omega), words_append data ext 51 12 (by omega),
    words_append data ext 99 3 (by omega)]

/-! Claim theorems. -/

/-- Claim C1 counterexample: a 113-byte state reply whose first 112
    bytes decode to a record and whose trailing byte is the correct
    8-bit sum (2) is decoded; flipping the trailing byte to 3 leaves the
    decode unchanged and still succeeds, so no checksum verification
    takes place and the corrupted frame is not discarded. -/
theorem checksum_flip_still_decoded_cex :
    parse_state ([0xA5, 0x5A, 0x01] ++ List.replicate 108 0 ++ [0x02, 0x03]) =
      StateResult.ok ⟨1, List.replicate 12 0, List.replicate 12 0,
        List.replicate 3 0, 2⟩ ∧
    parse_state ([0xA5, 0x5A, 0x01] ++ List.replicate 108 0 ++ [0x02, 0x03]) =
      parse_state ([0xA5, 0x5A, 0x01] ++ List.replicate 108 0 ++ [0x02, 0x02]) := by
  constructor <;> decide

/-- Claim C1 (amended): no checksum verification is performed on
    received reply frames; a frame whose trailing byte is flipped
    decodes exactly as the intact frame does, and is decoded to a
    record rather than discarded. -/
theorem no_checksum_verification (data : List Nat) (b b' : Nat)
    (h : data.length = 112) :
    parse_state (data ++ [b]) = parse_state (data ++ [b']) ∧
    ∃ r, parse_state (data ++ [b]) = StateResult.ok r := by
  constructor
  · rw [parse_state_append data [b] (by omega),
      parse_state_append data [b'] (by omega)]
  · rw [parse_state_append data [b] (by omega)]
    refine ⟨⟨data.getD 2 0, words data 3 12, words data 51 12,
      words data 99 3, data.getD 111 0⟩, ?_⟩
    unfold parse_state
    rw [if_neg (by omega)]

/-- Witness for the amended claim C1 at a concrete frame. -/
theorem no_checksum_verification_witness :
    parse_state (List.replicate 112 0 ++ [0xFF]) =
      parse_state (List.replicate 112 0 ++ [0x00]) ∧
    ∃ r, parse_state (List.replicate 112 0 ++ [0xFF]) = StateResult.ok r :=
  no_checksum_verification (List.replicate 112 0) 0xFF 0x00 (by decide)

/-- Claim C2: a buffer shorter than the fixed schema width (112 bytes
    for state, 58 for sensors) makes the decoder take its failure
    branch, producing the raw-hex fallback and never any (even
    partially populated) record. -/
theorem short_packet_all_or_nothing (data : List Nat) :
    (data.length < 112 →
      parse_state data = StateResult.raw (hexStr data) ∧
      ∀ r, parse_state data ≠ StateResult.ok r) ∧
    (data.length < 58 →
      parse_sensors data = SensorResult.raw (hexStr data) ∧
      ∀ s, parse_sensors data ≠ SensorResult.ok s) := by
  constructor
  · intro h
    have he : parse_state data = StateResult.raw (hexStr data) := by
      unfold parse_state
      rw [if_pos (by omega)]
    exact ⟨he, fun r hr => by rw [he] at hr; exact StateResult.noConfusion hr⟩
  · intro h
    have he : parse_sensors data = SensorResult.raw (hexStr data) := by
      unfold parse_sensors
      rw [if_pos (by omega)]
    exact ⟨he, fun s hs => by rw [he] at hs; exact SensorResult.noConfusion hs⟩

/-- Witness for claim C2 at a concrete one-byte buffer. -/
theorem short_packet_all_or_nothing_witness :
    parse_state [0xA5] = StateResult.raw (hexStr [0xA5]) ∧
    parse_sensors [0xA5] = SensorResult.raw (hexStr [0xA5]) :=
  ⟨((short_packet_all_or_nothing [0xA5]).1 (by decide)).1,
   ((short_packet_all_or_nothing [0xA5]).2 (by decide)).1⟩

/-- Claim C3: every successfully encoded command frame is
    header ++ length byte ++ body ++ checksum byte with checksum the
    8-bit sum of everything before it and the length byte equal to the
    body length; the axis command with joint_id 3 and the binary32 bit
    pattern of 12.5 yields body 03 03 00 00 48 41 and frame
    A5 5A 06 03 03 00 00 48 41 94, and those four little-endian bytes
    denote exactly 12.5. -/
theorem frame_layout_and_axis_scenario :
    (∀ body frame, encodeFrame body = some frame →
      frame = COMMAND_HEADER ++ [body.length] ++ body ++
        [(COMMAND_HEADER ++ [body.length] ++ body).sum % 256]) ∧
    buildBody (some "axis") ⟨none, some 3, some 0x41480000, none, none⟩ =
      BodyResult.ok ([0x03, 0x03] ++ [0x00, 0x00, 0x48, 0x41]) ∧
    f32ToRat (le32 [0x00, 0x00, 0x48, 0x41] 0) = some (25 / 2 : ℚ) ∧
    (∀ net, sentDatagrams
        (commandHandler net (some "axis")
          ⟨none, some 3, some 0x41480000, none, none⟩).2 =
      [[0xA5, 0x5A, 0x06, 0x03, 0x03, 0x00, 0x00, 0x48, 0x41, 0x94]]) := by
  refine ⟨?_, by decide, ?_, ?_⟩
  · intro body frame hf
    unfold encodeFrame at hf
    split at hf
    · exact (Option.some.injEq _ _).mp hf |>.symm
    · exact Option.noConfusion hf
  · have hle : le32 [0x00, 0x00, 0x48, 0x41] 0 = 0x41480000 := by decide
    rw [hle]
    simp only [f32ToRat]
    norm_num
  · intro net
    have hb : buildBody (some "axis") ⟨none, some 3, some 0x41480000, none, none⟩ =
        BodyResult.ok [0x03, 0x03, 0x00, 0x00, 0x48, 0x41] := by decide
    have he : encodeFrame [0x03, 0x03, 0x00, 0x00, 0x48, 0x41] =
        some [0xA5, 0x5A, 0x06, 0x03, 0x03, 0x00, 0x00, 0x48, 0x41, 0x94] := by decide
    simp only [commandHandler, hb, he]
    rcases hr : (send_udp_message net
        [0xA5, 0x5A, 0x06, 0x03, 0x03, 0x00, 0x00, 0x48, 0x41, 0x94] true 256).1 with _ | reply
    · simp only [hr]
      exact sent_send_udp net _ true 256
    · simp only [hr]
      exact sent_send_udp net _ true 256

/-- Witness for the framing part of claim C3 at the heartbeat body. -/
theorem frame_layout_and_axis_scenario_witness :
    encodeFrame [0x01] = some [0xA5, 0x5A, 0x01, 0x01, 0x01] ∧
    [0xA5, 0x5A, 0x01, 0x01, 0x01] =
      COMMAND_HEADER ++ [[0x01].length] ++ [0x01] ++
        [(COMMAND_HEADER ++ [[0x01].length] ++ [0x01]).sum % 256] :=
  ⟨by decide,
   frame_layout_and_axis_scenario.1 [0x01] [0xA5, 0x5A, 0x01, 0x01, 0x01] (by decide)⟩

/-- Claim C4 counterexample: an axis command with no joint_id (and no
    angle) is not rejected with a missing-parameter failure; the
    handler defaults both to 0, encodes the frame and performs the UDP
    exchange (here the device does not reply, so the outcome is the
    timeout response after one datagram was sent). -/
theorem missing_param_sent_anyway_cex :
    commandHandler (fun _ => none) (some "axis") ⟨none, none, none, none, none⟩ =
      (⟨504, JVal.jobj [("status", JVal.jstr "timeout"),
          ("sent", JVal.jstr "a55a0603000000000008")]⟩,
       [Ev.openSock, Ev.sendto [0xA5, 0x5A, 0x06, 0x03, 0x00, 0x00, 0x00, 0x00, 0x00, 0x08],
        Ev.closeSock]) := rfl

/-- Claim C4 (amended): a missing parameter never fails; params.get
    silently substitutes the default 0 for every absent field of every
    command kind, and the defaulted command is encoded and sent. -/
theorem missing_params_defaulted (net : List Nat → Option (List Nat)) :
    (∀ cmd, buildBody cmd ⟨none, none, none, none, none⟩ =
      buildBody cmd ⟨some 0, some 0, some 0, some 0, some 0⟩) ∧
    commandHandler net (some "axis") ⟨none, none, none, none, none⟩ =
      commandHandler net (some "axis") ⟨some 0, some 0, some 0, some 0, some 0⟩ ∧
    sentDatagrams (commandHandler net (some "axis") ⟨none, none, none, none, none⟩).2 =
      [[0xA5, 0x5A, 0x06, 0x03, 0x00, 0x00, 0x00, 0x00, 0x00, 0x08]] := by
  refine ⟨fun cmd => rfl, rfl, ?_⟩
  have hb : buildBody (some "axis") ⟨none, none, none, none, none⟩ =
      BodyResult.ok [0x03, 0x00, 0x00, 0x00, 0x00, 0x00] := by decide
  have he : encodeFrame [0x03, 0x00, 0x00, 0x00, 0x00, 0x00] =
      some [0xA5, 0x5A, 0x06, 0x03, 0x00, 0x00, 0x00, 0x00, 0x00, 0x08] := by decide
  simp only [commandHandler, hb, he]
  rcases hr : (send_udp_message net
      [0xA5, 0x5A, 0x06, 0x03, 0x00, 0x00, 0x00, 0x00, 0x00, 0x08] true 256).1 with _ | reply
  · simp only [hr]
    exact sent_send_udp net _ true 256
  · simp only [hr]
    exact sent_send_udp net _ true 256

/-- Claim C5: a command kind outside the recipe table (not heartbeat,
    state_change, axis, gait or action, including an absent cmd field)
    produces the 400 unknown-command response and no UDP datagram is
    sent. -/
theorem unknown_command_no_send (net : List Nat → Option (List Nat))
    (cmd : Option String) (p : Params)
    (h1 : cmd ≠ some "heartbeat") (h2 : cmd ≠ some "state_change")
    (h3 : cmd ≠ some "axis") (h4 : cmd ≠ some "gait") (h5 : cmd ≠ some "action") :
    commandHandler net cmd p =
      (⟨400, JVal.jobj [("error", JVal.jstr "Unknown command type")]⟩, []) ∧
    sentDatagrams (commandHandler net cmd p).2 = [] := by
  have hb : buildBody cmd p = BodyResult.unknown := by
    unfold buildBody
    rw [if_neg h1, if_neg h2, if_neg h3, if_neg h4, if_neg h5]
  constructor
  · simp only [commandHandler, hb]
  · simp only [commandHandler, hb, sentDatagrams, List.filterMap]

/-- Witness for claim C5 at a concrete unknown command kind. -/
theorem unknown_command_no_send_witness :
    commandHandler (fun _ => none) (some "dance") ⟨none, none, none, none, none⟩ =
      (⟨400, JVal.jobj [("error", JVal.jstr "Unknown command type")]⟩, []) ∧
    sentDatagrams (commandHandler (fun _ => none) (some "dance")
      ⟨none, none, none, none, none⟩).2 = [] :=
  unknown_command_no_send (fun _ => none) (some "dance") ⟨none, none, none, none, none⟩
    (by decide) (by decide) (by decide) (by decide) (by decide)

/-- Claim C6: when no inbound datagram arrives within the timeout, the
    call returns none (the timeout outcome, no exception and no partial
    data); on every path (reply, timeout, fire-and-forget) exactly one
    datagram is sent and the trace opens the socket first and closes it
    last. -/
theorem timeout_single_send_socket_closed (net : List Nat → Option (List Nat))
    (payload : List Nat) (sz : Nat) (h : net payload = none) :
    send_udp_message net payload true sz =
      (none, [Ev.openSock, Ev.sendto payload, Ev.closeSock]) ∧
    (∀ er, sentDatagrams (send_udp_message net payload er sz).2 = [payload] ∧
      (send_udp_message net payload er sz).2.head? = some Ev.openSock ∧
      (send_udp_message net payload er sz).2.getLast? = some Ev.closeSock) := by
  constructor
  · simp [send_udp_message, h]
  · intro er
    refine ⟨sent_send_udp net payload er sz, ?_, ?_⟩ <;>
      · unfold send_udp_message
        cases er
        · rfl
        · cases net payload <;> rfl

/-- Witness for claim C6 with a device that never replies. -/
theorem timeout_single_send_socket_closed_witness :
    send_udp_message (fun _ => none) [0x01] true 256 =
      (none, [Ev.openSock, Ev.sendto [0x01], Ev.closeSock]) :=
  (timeout_single_send_socket_closed (fun _ => none) [0x01] 256 rfl).1

/-- Claim C7: the 112-byte state reply whose fields are posture 1,
    twelve zero joint angles, twelve zero joint velocities, zero
    position and gait 2 decodes to exactly that StateRecord; the
    all-zero binary32 word denotes the float value 0. -/
theorem state_decode_scenario :
    parse_state ([0xA5, 0x5A, 0x01] ++ List.replicate 108 0 ++ [0x02]) =
      StateResult.ok ⟨1, List.replicate 12 0, List.replicate 12 0,
        List.replicate 3 0, 2⟩ ∧
    f32ToRat 0 = some (0 : ℚ) := by
  constructor
  · decide
  · simp only [f32ToRat]
    norm_num

/-- Claim C8 counterexample: buffers strictly longer than the schema
    width (113 bytes for state, 59 for sensors) are not rejected; both
    decoders return fully populated records and ignore the extra byte. -/
theorem long_buffer_decoded_cex :
    parse_state (List.replicate 113 0) =
      StateResult.ok ⟨0, List.replicate 12 0, List.replicate 12 0,
        List.replicate 3 0, 0⟩ ∧
    parse_sensors (List.replicate 59 0) =
      SensorResult.ok ⟨[0, 0, 0], [0, 0, 0], [0, 0, 0], 0, 0, 0, 0, 0⟩ := by
  constructor <;> decide

/-- Claim C8 (amended): decoding fails exactly when the buffer is
    shorter than the schema width; any buffer at least that long is
    decoded, and bytes beyond the first 112 never affect the state
    record. -/
theorem decode_iff_min_length (data : List Nat) :
    ((∃ r, parse_state data = StateResult.ok r) ↔ 112 ≤ data.length) ∧
    ((∃ s, parse_sensors data = SensorResult.ok s) ↔ 58 ≤ data.length) ∧
    (∀ ext, 112 ≤ data.length → parse_state (data ++ ext) = parse_state data) := by
  refine ⟨⟨?_, ?_⟩, ⟨?_, ?_⟩, fun ext h => parse_state_append data ext h⟩
  · rintro ⟨r, hr⟩
    by_contra hlen
    have he : parse_state data = StateResult.raw (hexStr data) := by
      unfold parse_state
      rw [if_pos (by omega)]
    rw [he] at hr
    exact StateResult.noConfusion hr
  · intro hlen
    refine ⟨⟨data.getD 2 0, words data 3 12, words data 51 12,
      words data 99 3, data.getD 111 0⟩, ?_⟩
    unfold parse_state
    rw [if_neg (by omega)]
  · rintro ⟨s, hs⟩
    by_contra hlen
    have he : parse_sensors data = SensorResult.raw (hexStr data) := by
      unfold parse_sensors
      rw [if_pos (by omega)]
    rw [he] at hs
    exact SensorResult.noConfusion hs
  · intro hlen
    refine ⟨⟨(words data 2 9).take 3, ((words data 2 9).drop 3).take 3,
      ((words data 2 9).drop 6).take 3, (words data 38 2).getD 0 0,
      (words data 38 2).getD 1 0, (words data 46 3).getD 0 0,
      (words data 46 3).getD 1 0, (words data 46 3).getD 2 0⟩, ?_⟩
    unfold parse_sensors
    rw [if_neg (by omega)]

/-- Witness for the amended claim C8: a 112-byte buffer decodes, and an
    appended byte does not change the result. -/
theorem decode_iff_min_length_witness :
    parse_state (List.replicate 112 0 ++ [0x07]) =
      parse_state (List.replicate 112 0) :=
  (decode_iff_min_length (List.replicate 112 0)).2.2 [0x07] (by decide)

/-- Claim C9: the codec pipeline is pure; the /state result is a
    function of the reply bytes alone, so two query_state calls whose
    device replies are byte-identical produce identical results (no
    hidden mutable codec state). -/
theorem query_state_deterministic (net1 net2 : List Nat → Option (List Nat))
    (h : net1 STATE_REQUEST = net2 STATE_REQUEST) :
    get_state net1 = get_state net2 := by
  simp only [get_state, send_udp_message, h]

/-- Witness for claim C9: two distinct device oracles that answer the
    state request with the same bytes yield the same response. -/
theorem query_state_deterministic_witness :
    get_state (fun _ => some (List.replicate 112 0)) =
      get_state (fun d => if d = [] then none else some (List.replicate 112 0)) :=
  query_state_deterministic (fun _ => some (List.replicate 112 0))
    (fun d => if d = [] then none else some (List.replicate 112 0)) (by decide)

/-- Claim C10: the decoders are total; every too-short buffer yields
    the raw-hex fallback dict and every sufficient buffer yields a full
    record (no exception escapes); when the sensor reply is in fallback
    form, get_sensors returns HTTP 200 with the full fallback dict for
    every value of the type filter. -/
theorem decoders_total_raw_fallback :
    (∀ data, data.length < 112 → parse_state data = StateResult.raw (hexStr data)) ∧
    (∀ data, 112 ≤ data.length → ∃ r, parse_state data = StateResult.ok r) ∧
    (∀ data, data.length < 58 → parse_sensors data = SensorResult.raw (hexStr data)) ∧
    (∀ data, 58 ≤ data.length → ∃ s, parse_sensors data = SensorResult.ok s) ∧
    (∀ net reply ty, net SENSOR_REQUEST = some reply → reply.length < 58 →
      get_sensors net ty =
        (⟨200, JVal.jobj [("raw", JVal.jstr (hexStr reply))]⟩,
         [Ev.openSock, Ev.sendto SENSOR_REQUEST, Ev.recvOk reply, Ev.closeSock])) := by
  refine ⟨?_, ?_, ?_, ?_, ?_⟩
  · intro data h
    unfold parse_state
    rw [if_pos (by omega)]
  · intro data h
    refine ⟨⟨data.getD 2 0, words data 3 12, words data 51 12,
      words data 99 3, data.getD 111 0⟩, ?_⟩
    unfold parse_state
    rw [if_neg (by omega)]
  · intro data h
    unfold parse_sensors
    rw [if_pos (by omega)]
  · intro data h
    refine ⟨⟨(words data 2 9).take 3, ((words data 2 9).drop 3).take 3,
      ((words data 2 9).drop 6).take 3, (words data 38 2).getD 0 0,
      (words data 38 2).getD 1 0, (words data 46 3).getD 0 0,
      (words data 46 3).getD 1 0, (words data 46 3).getD 2 0⟩, ?_⟩
    unfold parse_sensors
    rw [if_neg (by omega)]
  · intro net reply ty h1 h2
    have htake : reply.take 512 = reply := List.take_of_length_le (by omega)
    have hsend : send_udp_message net SENSOR_REQUEST true 512 =
        (some reply,
         [Ev.openSock, Ev.sendto SENSOR_REQUEST, Ev.recvOk reply, Ev.closeSock]) := by
      simp [send_udp_message, h1, htake]
    have hpar : parse_sensors reply = SensorResult.raw (hexStr reply) := by
      unfold parse_sensors
      rw [if_pos (by omega)]
    simp only [get_sensors, hsend, hpar, sensorsFields]
    cases ty with
    | none => rfl
    | some t =>
      by_cases ht : t = ""
      · subst ht
        rfl
      · simp only [ne_eq, ht, not_false_eq_true, if_true]
        by_cases hr : t = "raw"
        · subst hr
          rfl
        · have hbeq : (t == "raw") = false := beq_eq_false_iff_ne.mpr hr
          have hlk : List.lookup t [("raw", JVal.jstr (hexStr reply))] = none := by
            simp [List.lookup, hbeq]
          simp only [hlk]

/-- Witness for claim C10: a malformed two-byte sensor reply is
    returned whole as the raw-hex fallback with HTTP status 200 even
    though an imu filter was requested. -/
theorem decoders_total_raw_fallback_witness :
    get_sensors (fun _ => some [0x01, 0x02]) (some "imu") =
      (⟨200, JVal.jobj [("raw", JVal.jstr (hexStr [0x01, 0x02]))]⟩,
       [Ev.openSock, Ev.sendto SENSOR_REQUEST, Ev.recvOk [0x01, 0x02], Ev.closeSock]) :=
  decoders_total_raw_fallback.2.2.2.2 (fun _ => some [0x01, 0x02]) [0x01, 0x02]
    (some "imu") rfl (by decide)
